import Mathlib

/-!
Shallow embedding of the quakepro waveform-acquisition pipeline and entity layer.

Sources embedded here:
* `src/scripts/fetcher_csv.py` (explicit-catalog fetcher `WaveformFetcher`),
* `src/scripts/fetcher_int.py` (synthetic fetcher `INTFetcher`),
* `src/scripts/_utils/_mixins.py` (`_FetcherMixin`),
* `src/quakepro/components/waveform.py`, `src/quakepro/components/dataset.py`,
  `src/quakepro/components/ops/processing.py`, `src/quakepro/internal/decorators.py`,
* `src/quakepro/core.py` (`load_dataset`), `src/quakepro/processing.py` (`Processor`).

Modelling conventions: real-valued samples, times and coordinates are rationals
(`ℚ`); absolute times are seconds since an arbitrary epoch.  External numeric
engines (scipy `butter`/`sosfilt`/`sosfiltfilt`/`get_window`) and the remote
FDSN service are abstracted as function parameters, exactly at the call
boundary the Python code uses.  Python exceptions are modelled with `Except`;
a value that Python computes as the float `NaN` marker for a missing
travel-time arrival is modelled as `Option.none`.
-/

namespace QuakePro

/-- Python slicing `s[1:]` on a string: drop the first character.
Used for `dataset.name[1:]` in `_append_attributes` / `_generate_attributes`. -/
def pySlice1 (s : String) : String := ⟨s.data.drop 1⟩

theorem pySlice1_slash (k : String) : pySlice1 ("/" ++ k) = k := by
  show String.mk (("/" ++ k).data.drop 1) = k
  cases k with
  | mk l => simp [String.instAppend, String.append]

/-- The deterministic binary-store key, from
`f'{self.station.name}.{self.network}.{event.id}'` in `_create_dataset`
(`fetcher_csv.py` line 293, `_mixins.py` line 132). -/
def traceKey (stationName network : String) (eventId : ℤ) : String :=
  stationName ++ "." ++ network ++ "." ++ toString eventId

/-- The dual-store state built by one batch run: the HDF5 binary store
(insertion-ordered key/value list, one entry per `create_dataset` call) and
the in-memory attribute-row buffer (`self._attr_list`). -/
structure RunState (Row Wave : Type) where
  store : List (String × Wave)
  rows : List Row
  deriving Repr

/-- `h5py.File.create_dataset(name=key, data=waveform)`: raises `ValueError`
if a dataset with that name already exists, otherwise appends the entry and
returns a dataset whose h5py `.name` is the absolute path `"/" ++ key`. -/
def createDataset {Wave : Type} (store : List (String × Wave)) (key : String)
    (w : Wave) : Except Unit (List (String × Wave) × String) :=
  if (store.map Prod.fst).contains key then .error ()
  else .ok (store ++ [(key, w)], "/" ++ key)

/-- The per-event batch loop shared by `WaveformFetcher.create_waveform_catalog`
(`fetcher_csv.py` lines 355-366) and `_FetcherMixin._create_catalog`
(`_mixins.py` lines 195-206): for each catalog event, try to download the
waveform (`download e = none` models any exception raised inside
`_download_waveforms`, which is caught, logged and skipped); on success,
`create_dataset` (an uncaught duplicate-key error aborts the whole run) and
append the attribute row built by the subclass's `_generate_attributes`
(here the parameter `mkRow`, applied to the event and the dataset name). -/
def runCatalog {E Row Wave : Type} (download : E → Option Wave)
    (key : E → String) (mkRow : E → String → Row) :
    List E → RunState Row Wave → Except Unit (RunState Row Wave)
  | [], st => .ok st
  | e :: rest, st =>
    match download e with
    | none => runCatalog download key mkRow rest st
    | some w =>
      match createDataset st.store (key e) w with
      | .error _ => .error ()
      | .ok (store', dsName) =>
        runCatalog download key mkRow rest ⟨store', st.rows ++ [mkRow e dsName]⟩

/-- Invariant carried through the batch loop: if the starting state's store
keys coincide (in order and multiplicity) with its rows' trace names, the keys
are pairwise distinct, and every key comes from the key function on some event,
then any successful run preserves all three facts, now over the initial
events plus the processed ones. -/
theorem runCatalog_inv {E Row Wave : Type} (download : E → Option Wave)
    (key : E → String) (mkRow : E → String → Row) (tn : Row → String)
    (htn : ∀ e n, tn (mkRow e n) = pySlice1 n) :
    ∀ (evs : List E) (st st' : RunState Row Wave),
      runCatalog download key mkRow evs st = .ok st' →
      st.store.map Prod.fst = st.rows.map tn →
      (st.store.map Prod.fst).Nodup →
      st'.store.map Prod.fst = st'.rows.map tn ∧
      (st'.store.map Prod.fst).Nodup ∧
      ∀ k ∈ st'.store.map Prod.fst,
        k ∈ st.store.map Prod.fst ∨ ∃ e ∈ evs, k = key e := by
  intro evs
  induction evs with
  | nil =>
    intro st st' hrun h1 h2
    simp only [runCatalog] at hrun
    cases hrun
    exact ⟨h1, h2, fun k hk => Or.inl hk⟩
  | cons e rest ih =>
    intro st st' hrun h1 h2
    simp only [runCatalog] at hrun
    cases hdl : download e with
    | none =>
      rw [hdl] at hrun
      obtain ⟨g1, g2, g3⟩ := ih st st' hrun h1 h2
      refine ⟨g1, g2, fun k hk => ?_⟩
      rcases g3 k hk with h | ⟨e', he', hke⟩
      · exact Or.inl h
      · exact Or.inr ⟨e', List.mem_cons_of_mem _ he', hke⟩
    | some w =>
      rw [hdl] at hrun
      simp only [createDataset] at hrun
      by_cases hmem : (st.store.map Prod.fst).contains (key e) = true
      · rw [if_pos hmem] at hrun
        simp at hrun
      · rw [if_neg hmem] at hrun
        simp only at hrun
        have hmem' : key e ∉ st.store.map Prod.fst := by
          simpa using hmem
        obtain ⟨g1, g2, g3⟩ :=
          ih ⟨st.store ++ [(key e, w)], st.rows ++ [mkRow e ("/" ++ key e)]⟩ st' hrun
            (by simp [h1, htn, pySlice1_slash])
            (by simp [List.nodup_append, h2, hmem'])
        refine ⟨g1, g2, fun k hk => ?_⟩
        rcases g3 k hk with h | ⟨e', he', hke⟩
        · simp only [List.map_append, List.mem_append] at h
          rcases h with h | h
          · exact Or.inl h
          · simp only [List.map_cons, List.map_nil, List.mem_singleton] at h
            exact Or.inr ⟨e, List.mem_cons_self _ _, h⟩
        · exact Or.inr ⟨e', List.mem_cons_of_mem _ he', hke⟩

/-- C1: after every successful batch run (explicit or synthetic mode, both of
which instantiate this loop), the binary waveform store and the attribute
table are in bijection: the list of binary-store keys equals, entry for entry,
the list of `trace_name` values of the attribute rows, the keys are pairwise
distinct (so each side matches exactly one entry of the other), and every key
is the deterministic string `"{station}.{network}.{event_id}"` of some
processed event. -/
theorem dual_store_bijection {E Row Wave : Type} (download : E → Option Wave)
    (eventId : E → ℤ) (mkRow : E → String → Row) (tn : Row → String)
    (stationName network : String)
    (htn : ∀ e n, tn (mkRow e n) = pySlice1 n)
    (events : List E) (st : RunState Row Wave)
    (hrun : runCatalog download (fun e => traceKey stationName network (eventId e))
      mkRow events ⟨[], []⟩ = .ok st) :
    st.store.map Prod.fst = st.rows.map tn ∧
    (st.store.map Prod.fst).Nodup ∧
    ∀ k ∈ st.store.map Prod.fst,
      ∃ e ∈ events, k = traceKey stationName network (eventId e) := by
  obtain ⟨g1, g2, g3⟩ :=
    runCatalog_inv download _ mkRow tn htn events ⟨[], []⟩ st hrun (by simp) (by simp)
  refine ⟨g1, g2, fun k hk => ?_⟩
  rcases g3 k hk with h | h
  · simp at h
  · exact h

/-- Witness for `dual_store_bijection`: a concrete one-event run (event id 7,
station `ST`, network `NN`, trivial waveform payload) whose resulting store
holds the single key `ST.NN.7`, matching the single attribute row. -/
theorem dual_store_bijection_witness :
    ([("ST.NN.7", ())].map (Prod.fst) = ["ST.NN.7"].map (fun r => r) ∧
      (([("ST.NN.7", ())].map (Prod.fst) : List String)).Nodup ∧
      ∀ k ∈ ([("ST.NN.7", ())].map (Prod.fst) : List String),
        ∃ e ∈ [(7 : ℤ)], k = traceKey "ST" "NN" e) := by
  have h := @dual_store_bijection ℤ String Unit
    (fun _ => some ()) (fun e => e) (fun _ n => pySlice1 n) (fun r => r)
    "ST" "NN" (fun _ _ => rfl) [7] ⟨[("ST.NN.7", ())], ["ST.NN.7"]⟩ (by rfl)
  exact h

/-! ## Explicit-catalog mode (`fetcher_csv.py`, `WaveformFetcher`) -/

/-- One row of the explicit earthquake catalog CSV: columns
`{id, time, lat, lon, depth, magnitude}`. -/
structure CsvEvent where
  id : ℤ
  time : ℚ
  lat : ℚ
  lon : ℚ
  depth : ℚ
  magnitude : ℚ
  deriving Repr, DecidableEq

/-- Python `round(x, 5)` on the travel time (`fetcher_csv.py` line 202),
rounding to five decimal places (half-up; the float half-even detail is
immaterial to every claim below). -/
def round5 (q : ℚ) : ℚ := (⌊q * 100000 + 1 / 2⌋ : ℤ) / 100000

/-- `WaveformFetcher._calculate_p_travel_times`: for each catalog event, ask
the travel-time model (external `TauPyModel.get_travel_times_geo`, abstracted
as `model : CsvEvent → Option ℚ` returning the first arrival's time, or `none`
when the arrival list is empty) and store `round(first_arrival, 5)`, or the
`NaN` marker (`none`) when there is no arrival. -/
def calculatePTravelTimes (model : CsvEvent → Option ℚ) (catalog : List CsvEvent) :
    List (CsvEvent × Option ℚ) :=
  catalog.map (fun e => (e, (model e).map round5))

/-- `obspy.UTCDateTime.__add__` applied to an origin time and a possibly-`NaN`
travel time: adding the float `NaN` raises `ValueError` (`int(round(nan*1e9))`
cannot convert `NaN` to an integer), so the missing-arrival marker makes the
addition fail. -/
def utcAdd (t : ℚ) : Option ℚ → Except Unit ℚ
  | none => .error ()
  | some x => .ok (t + x)

/-- A catalog event together with its computed travel time and trace window,
as produced by `_calculate_p_travel_times` plus `_calculate_trace_times`. -/
structure TimedCsvEvent where
  event : CsvEvent
  p_travel_time_s : Option ℚ
  trace_start_time : ℚ
  trace_end_time : ℚ
  deriving Repr, DecidableEq

/-- `WaveformFetcher._calculate_trace_times` (lines 206-217): the vectorised
pandas computation `arrival_times = origin_times + p_travel_time_s` evaluates
`UTCDateTime.__add__` element-wise over the whole catalog — it runs outside
the per-event loop, so the first `NaN` travel time raises and aborts the
whole computation.  On success each event gets the window
`[arrival - time_before_p, arrival + time_after_p]`. -/
def calculateTraceTimes (time_before_p time_after_p : ℚ)
    (l : List (CsvEvent × Option ℚ)) : Except Unit (List TimedCsvEvent) :=
  l.mapM (fun p => do
    let arrival ← utcAdd p.1.time p.2
    pure ⟨p.1, p.2, arrival - time_before_p, arrival + time_after_p⟩)

/-- The station record resolved once per run (`_Station`), with the
set-once `sampling_rate` field holding the value it has when the attribute
row is built. -/
structure StationInfo where
  name : String
  network : String
  latitude : ℚ
  longitude : ℚ
  elevation : ℚ
  sampling_rate : ℚ
  deriving Repr, DecidableEq

/-- One attribute row of the explicit-mode table, field for field the dict
literal of `WaveformFetcher._append_attributes` (`fetcher_csv.py` lines
313-330). -/
structure CsvRow where
  trace_name : String
  trace_start_time : ℚ
  rec_network : String
  rec_name : String
  rec_type : String
  rec_latitude_deg : ℚ
  rec_longitude_deg : ℚ
  rec_elevation_m : ℚ
  rec_sampling_rate_hz : ℚ
  src_id : ℤ
  src_origin_time : ℚ
  src_latitude_deg : ℚ
  src_longitude_deg : ℚ
  src_depth_km : ℚ
  src_magnitude : ℚ
  p_travel_sec : Option ℚ
  deriving Repr, DecidableEq

/-- The attribute-row construction of `WaveformFetcher._append_attributes`:
note that the source assigns `'src_latitude_deg': event.lon` and
`'src_longitude_deg': event.lat` (lines 325-326), which this embedding
reproduces verbatim. -/
def csvGenerateAttributes (st : StationInfo) (channel : String)
    (e : TimedCsvEvent) (dsName : String) : CsvRow :=
  { trace_name := pySlice1 dsName
    trace_start_time := e.trace_start_time
    rec_network := st.network
    rec_name := st.name
    rec_type := channel.take 2
    rec_latitude_deg := st.latitude
    rec_longitude_deg := st.longitude
    rec_elevation_m := st.elevation
    rec_sampling_rate_hz := st.sampling_rate
    src_id := e.event.id
    src_origin_time := e.event.time
    src_latitude_deg := e.event.lon
    src_longitude_deg := e.event.lat
    src_depth_km := e.event.depth
    src_magnitude := e.event.magnitude
    p_travel_sec := e.p_travel_time_s }

/-- `WaveformFetcher.create_waveform_catalog` (lines 344-366): compute travel
times, compute trace windows (which can abort, see `calculateTraceTimes`),
then run the per-event download/write loop. -/
def createWaveformCatalog {Wave : Type} (model : CsvEvent → Option ℚ)
    (download : TimedCsvEvent → Option Wave) (time_before_p time_after_p : ℚ)
    (st : StationInfo) (channel : String) (catalog : List CsvEvent) :
    Except Unit (RunState CsvRow Wave) := do
  let timed ← calculateTraceTimes time_before_p time_after_p
    (calculatePTravelTimes model catalog)
  runCatalog download (fun te => traceKey st.name st.network te.event.id)
    (csvGenerateAttributes st channel) timed ⟨[], []⟩

/-- A two-event catalog whose first event gets no arrival from the
travel-time model. -/
def noArrivalCatalog : List CsvEvent :=
  [⟨1, 1000, 42, 13, 10, 3⟩, ⟨2, 2000, 43, 14, 11, 2⟩]

/-- A travel-time model that returns no arrival for event 1 and a 10-second
first arrival for every other event. -/
def noArrivalModel : CsvEvent → Option ℚ :=
  fun e => if e.id = 1 then none else some 10

/-- C4 (code evaluated at the failing input): in explicit mode, a catalog of
N = 2 events where the travel-time model returns no arrival for exactly one
event does NOT yield N−1 = 1 attribute rows; instead the whole run aborts
with an uncaught error (for every download behaviour), because
`_calculate_trace_times` adds the `NaN` travel-time marker to a `UTCDateTime`
outside the per-event try/except.  No binary store entry and no attribute row
is produced at all. -/
theorem no_arrival_aborts_batch :
    ∀ download : TimedCsvEvent → Option Unit,
      createWaveformCatalog noArrivalModel download 5 15
        ⟨"ST", "NN", 40, 15, 100, 100⟩ "EH*" noArrivalCatalog = .error () ∧
      ∀ st : RunState CsvRow Unit,
        createWaveformCatalog noArrivalModel download 5 15
          ⟨"ST", "NN", 40, 15, 100, 100⟩ "EH*" noArrivalCatalog ≠
          .ok st := by
  intro download
  constructor
  · rfl
  · intro st h
    rw [show createWaveformCatalog noArrivalModel download 5 15
        ⟨"ST", "NN", 40, 15, 100, 100⟩ "EH*" noArrivalCatalog = .error () from rfl] at h
    exact Except.noConfusion h

/-- C5 (code evaluated at the failing input): for the event with latitude 42
and longitude 13, the written attribute row records `src_latitude_deg = 13`
(the event's longitude) and `src_longitude_deg = 42` (the event's latitude):
the two source coordinates are swapped, so `src_latitude_deg` does NOT equal
the event's latitude.  The remaining source fields are preserved as claimed. -/
theorem src_coordinates_swapped :
    (csvGenerateAttributes ⟨"ST", "NN", 40, 15, 100, 100⟩ "EH*"
        ⟨⟨5, 1000, 42, 13, 10, 3⟩, some 10, 995, 1015⟩ "/ST.NN.5").src_latitude_deg = 13 ∧
    (csvGenerateAttributes ⟨"ST", "NN", 40, 15, 100, 100⟩ "EH*"
        ⟨⟨5, 1000, 42, 13, 10, 3⟩, some 10, 995, 1015⟩ "/ST.NN.5").src_longitude_deg = 42 ∧
    (⟨5, 1000, 42, 13, 10, 3⟩ : CsvEvent).lat = 42 ∧
    (⟨5, 1000, 42, 13, 10, 3⟩ : CsvEvent).lon = 13 ∧
    (42 : ℚ) ≠ 13 ∧
    (csvGenerateAttributes ⟨"ST", "NN", 40, 15, 100, 100⟩ "EH*"
        ⟨⟨5, 1000, 42, 13, 10, 3⟩, some 10, 995, 1015⟩ "/ST.NN.5").src_depth_km = 10 ∧
    (csvGenerateAttributes ⟨"ST", "NN", 40, 15, 100, 100⟩ "EH*"
        ⟨⟨5, 1000, 42, 13, 10, 3⟩, some 10, 995, 1015⟩ "/ST.NN.5").src_magnitude = 3 ∧
    (csvGenerateAttributes ⟨"ST", "NN", 40, 15, 100, 100⟩ "EH*"
        ⟨⟨5, 1000, 42, 13, 10, 3⟩, some 10, 995, 1015⟩ "/ST.NN.5").src_origin_time = 1000 ∧
    (csvGenerateAttributes ⟨"ST", "NN", 40, 15, 100, 100⟩ "EH*"
        ⟨⟨5, 1000, 42, 13, 10, 3⟩, some 10, 995, 1015⟩ "/ST.NN.5").p_travel_sec = some 10 := by
  refine ⟨rfl, rfl, rfl, rfl, by norm_num, rfl, rfl, rfl, rfl⟩

/-! ## The attach_response contract of per-event acquisition -/

/-- The Python exceptions distinguished by the embedding. -/
inductive PyError
  | attributeError
  | valueError
  deriving Repr, DecidableEq

/-- `WaveformFetcher.__init__` (`fetcher_csv.py` lines 127-140) assigns
`client`, `network`, `station`, `location`, `channel`, `time_before_p`,
`time_after_p`, `catalog`, `__dir_path`, `model`, `detrend`, `resample`,
`remove_response` and `__attr_list` — and nothing else.  `_download_waveforms`
(line 247) nevertheless reads `self.attach_response`; reading an instance
attribute that was never assigned raises `AttributeError` in Python, so the
lookup is modelled as the absent value `none`. -/
def csvAttachResponseAttr : Option Bool := none

/-- `WaveformFetcher._download_waveforms` (`fetcher_csv.py` lines 219-269),
cut at the external-service boundary: evaluate the `attach_response=` argument
(raising `AttributeError`, see `csvAttachResponseAttr`), perform the
`get_waveforms` fetch with it, then run the conditioning/validation pipeline
on the returned stream (both abstracted, since control never reaches them). -/
def csvDownloadWaveforms {Stream Wave : Type}
    (getWaveforms : Bool → Except PyError Stream)
    (processStream : Stream → Except PyError Wave) : Except PyError Wave := do
  let ar ← match csvAttachResponseAttr with
    | none => Except.error PyError.attributeError
    | some b => Except.ok b
  let st ← getWaveforms ar
  processStream st

/-- `_FetcherMixin._download_waveforms` (`_mixins.py` line 86) computes the
fetch-time argument as `attach_response=True if self.remove_response else
False`. -/
def mixinAttachResponse (remove_response : Option String) : Bool :=
  remove_response.isSome

/-- In the mixin-based fetchers, configuring `remove_response` does make the
fetch request an attached response. -/
theorem mixinAttachResponse_of_remove (r : String) :
    mixinAttachResponse (some r) = true := rfl

/-- C7 (code evaluated at the failing input): in `fetcher_csv.py`, for every
service behaviour and every conditioning pipeline — in particular whenever
`remove_response` is configured — the per-event acquisition raises
`AttributeError` while building the fetch call (the `self.attach_response`
attribute was never assigned), so the raw waveform fetch is never made with
`attach_response` requested: it is never made at all, and the per-event
handler of the batch loop swallows the error as an ordinary skip. -/
theorem csv_download_always_attribute_error {Stream Wave : Type} :
    ∀ (getWaveforms : Bool → Except PyError Stream)
      (processStream : Stream → Except PyError Wave),
      csvDownloadWaveforms getWaveforms processStream =
        .error PyError.attributeError := by
  intro getWaveforms processStream
  rfl

/-! ## Synthetic mode (`fetcher_int.py`, `INTFetcher`) -/

/-- One row of the synthetic catalog generated by
`INTFetcher._generate_catalog`. -/
structure IntRow where
  id : ℤ
  trace_start_time : ℚ
  trace_end_time : ℚ
  deriving Repr, DecidableEq

/-- `pd.date_range(start=s, end=e, freq=step)` with times in seconds: the
arithmetic sequence `s, s + step, s + 2·step, …` of every point lying in
`[s, e]`. -/
def dateRange (s e step : ℚ) : List ℚ :=
  if 0 < step ∧ s ≤ e then
    (List.range (Int.toNat ⌊(e - s) / step⌋ + 1)).map (fun i => s + (i : ℚ) * step)
  else []

/-- `INTFetcher._generate_catalog` (`fetcher_int.py` lines 94-107): ids are
`range(100000000, 100000000 + len(date_range))` paired positionally with the
date range as `trace_start_time`, and `trace_end_time` adds `trace_len`.
The synthetic fetcher holds no travel-time model at all (its `__init__`
constructs none), so this generation consults no travel-time estimator:
it is a pure function of the four window parameters below. -/
def generateCatalog (start_date end_date interval trace_len : ℚ) : List IntRow :=
  (dateRange start_date end_date interval).enum.map
    (fun p => ⟨100000000 + (p.1 : ℤ), p.2, p.2 + trace_len⟩)

/-- C6: synthetic mode with `start_date='2024-01-01'` (second 0),
`end_date='2024-01-01T00:10:00'` (second 600), `interval=5min` (300 s) and
`trace_len=1min` (60 s) generates exactly the three rows with ids
`100000000, 100000001, 100000002` — monotonically increasing — whose
`[trace_start_time, trace_end_time)` windows are each exactly 60 seconds wide
and pairwise non-overlapping. -/
theorem synthetic_catalog_scenario :
    generateCatalog 0 600 300 60 =
      [⟨100000000, 0, 60⟩, ⟨100000001, 300, 360⟩, ⟨100000002, 600, 660⟩] ∧
    (generateCatalog 0 600 300 60).Chain' (fun a b => a.id < b.id) ∧
    (∀ r ∈ generateCatalog 0 600 300 60,
      r.trace_end_time - r.trace_start_time = 60) ∧
    (generateCatalog 0 600 300 60).Pairwise
      (fun a b => a.trace_end_time ≤ b.trace_start_time ∨
        b.trace_end_time ≤ a.trace_start_time) := by
  have hgen : generateCatalog 0 600 300 60 =
      [⟨100000000, 0, 60⟩, ⟨100000001, 300, 360⟩, ⟨100000002, 600, 660⟩] := by
    have h1 : dateRange 0 600 300 = [0, 300, 600] := by
      have h2 : (⌊((600 : ℚ) - 0) / 300⌋ : ℤ) = 2 := by norm_num
      rw [dateRange, if_pos (by norm_num), h2]
      simp only [show Int.toNat (2 : ℤ) = 2 from rfl]
      simp only [show (2 : ℕ) + 1 = 3 from rfl, show List.range 3 = [0, 1, 2] from rfl]
      norm_num
    rw [generateCatalog, h1]
    simp only [List.enum, List.enumFrom, List.map]
    norm_num
  rw [hgen]
  refine ⟨rfl, ?_, ?_, ?_⟩
  · simp only [List.chain'_cons, List.chain'_singleton, and_true]
    norm_num
  · intro r hr
    simp only [List.mem_cons, List.not_mem_nil, or_false] at hr
    rcases hr with rfl | rfl | rfl <;> norm_num
  · simp only [List.pairwise_cons, List.mem_cons, List.not_mem_nil, or_false,
      List.Pairwise.nil, and_true, List.mem_singleton]
    refine ⟨?_, ?_, ?_⟩
    · intro b hb
      rcases hb with rfl | rfl <;> exact Or.inl (by norm_num)
    · intro b hb
      subst hb
      exact Or.inl (by norm_num)
    · intro b hb
      exact hb.elim

/-! ## Entity layer: Waveform, WaveformProcessor, WaveformDataset
(`components/waveform.py`, `components/ops/processing.py`,
`components/dataset.py`, `internal/decorators.py`) -/

/-- One `Waveform` object on the Python heap: its `data` array
(channels × samples), the identity (`id(...)`) of the `_attrs` `pd.Series` it
holds by reference, and the promoted `sampling_rate_hz` attribute the
processor reads (promoted attributes are scalar copies out of `_attrs`, so
two waveforms holding the same attrs object agree on them). -/
structure WaveformObj where
  data : List (List ℚ)
  attrsId : ℕ
  sampling_rate_hz : ℚ
  deriving Repr, DecidableEq

/-- The Python heap of `Waveform` objects; `Waveform.__init__` appends a new
object, and no operation below ever writes to an existing one. -/
structure Heap where
  objs : List WaveformObj
  deriving Repr, DecidableEq

/-- `normal_cutoff = [c / nyq for c in cutoff] if isinstance(cutoff, list)
else cutoff / nyq` (`processing.py` lines 53-55). -/
def normalizeCutoff (cutoff : ℚ ⊕ List ℚ) (nyq : ℚ) : ℚ ⊕ List ℚ :=
  match cutoff with
  | .inl c => .inl (c / nyq)
  | .inr cs => .inr (cs.map (fun c => c / nyq))

/-- `WaveformProcessor.filter` (`processing.py` lines 24-69), parameterised
over the scipy engines: `butter` designs second-order sections `sos` from the
order, the Nyquist-normalised cutoff and the filter type; each channel is run
through `sosfiltfilt` (zero-phase) or `sosfilt` (causal), either of which can
raise (e.g. a signal too short for the padding `sosfiltfilt` needs, modelled
by the `Except`).  The per-channel results are collected into a fresh array
(`np.zeros_like` + assignment), never written back into the input. -/
def filterData (S : Type) (butter : ℕ → (ℚ ⊕ List ℚ) → String → S)
    (sosfilt sosfiltfilt : S → List ℚ → Except Unit (List ℚ))
    (filter_type : String) (cutoff : ℚ ⊕ List ℚ) (order : ℕ) (zero_phase : Bool)
    (sampling_rate_hz : ℚ) (data : List (List ℚ)) : Except Unit (List (List ℚ)) :=
  let nyq := (1 / 2 : ℚ) * sampling_rate_hz
  let sos := butter order (normalizeCutoff cutoff nyq) filter_type
  data.mapM (fun signal =>
    if zero_phase then sosfiltfilt sos signal else sosfilt sos signal)

/-- `WaveformProcessor.taper` (`processing.py` lines 71-103), parameterised
over scipy's `get_window`: for each channel, synthesise a window of length
`len(signal)` from `(window_type, *args)` and multiply it elementwise into
the signal (numpy `signal * window`), collecting the results into a fresh
array. -/
def taperData (get_window : String → List ℚ → ℕ → List ℚ)
    (window_type : String) (params : List ℚ) (data : List (List ℚ)) :
    List (List ℚ) :=
  data.map (fun signal =>
    List.zipWith (· * ·) signal (get_window window_type params signal.length))

/-- The object-level effect of one `wf.filter(...)` call: read `self.wv.data`
and `self.wv.sampling_rate_hz`, compute the filtered channels, and build a
new `Waveform` that owns the new data but holds the same `_attrs` object
(`attrs=self.wv._attrs`, `processing.py` line 68). -/
def waveformFilterCall (S : Type) (butter : ℕ → (ℚ ⊕ List ℚ) → String → S)
    (sosfilt sosfiltfilt : S → List ℚ → Except Unit (List ℚ))
    (filter_type : String) (cutoff : ℚ ⊕ List ℚ) (order : ℕ) (zero_phase : Bool)
    (obj : WaveformObj) : Except Unit WaveformObj :=
  match filterData S butter sosfilt sosfiltfilt filter_type cutoff order
      zero_phase obj.sampling_rate_hz obj.data with
  | .error e => .error e
  | .ok d => .ok ⟨d, obj.attrsId, obj.sampling_rate_hz⟩

/-- The object-level effect of one `wf.taper(...)` call (`processing.py`
lines 100-103): new data, same `_attrs` object. -/
def waveformTaperCall (get_window : String → List ℚ → ℕ → List ℚ)
    (window_type : String) (params : List ℚ) (obj : WaveformObj) : WaveformObj :=
  ⟨taperData get_window window_type params obj.data, obj.attrsId,
    obj.sampling_rate_hz⟩

namespace Waveform

/-- `Waveform.filter(...)` (`waveform.py` lines 38-61): the `sync_signature`
wrapper (`decorators.py` lines 42-72) replaces the decorated body and
forwards the call to `self._processor.filter`, returning its result (every
keyword of a valid argument set is in the target signature, so the filtering
of `kwargs` forwards them all).  On the heap this reads object `i`, allocates
the processor's new `Waveform` and returns its index. -/
def filter (S : Type) (butter : ℕ → (ℚ ⊕ List ℚ) → String → S)
    (sosfilt sosfiltfilt : S → List ℚ → Except Unit (List ℚ))
    (h : Heap) (i : ℕ) (filter_type : String) (cutoff : ℚ ⊕ List ℚ)
    (order : ℕ) (zero_phase : Bool) : Except Unit (Heap × ℕ) :=
  match h.objs[i]? with
  | none => .error ()
  | some obj =>
    match waveformFilterCall S butter sosfilt sosfiltfilt filter_type cutoff
        order zero_phase obj with
    | .error e => .error e
    | .ok newObj => .ok (⟨h.objs ++ [newObj]⟩, h.objs.length)

/-- `Waveform.taper(...)` (`waveform.py` lines 63-80), through the same
`sync_signature` forwarding to `self._processor.taper`. -/
def taper (get_window : String → List ℚ → ℕ → List ℚ)
    (h : Heap) (i : ℕ) (window_type : String) (params : List ℚ) :
    Except Unit (Heap × ℕ) :=
  match h.objs[i]? with
  | none => .error ()
  | some obj =>
    .ok (⟨h.objs ++ [waveformTaperCall get_window window_type params obj]⟩,
      h.objs.length)

end Waveform

/-- C2: for every waveform `w` (a valid heap index) and every valid argument
set, `w.filter(...)` returns a brand-new `Waveform` — appended to the heap,
index `h.objs.length` — whose `_attrs` is the very same object as `w`'s
(equal `attrsId`) and whose data is the newly computed filtered channels;
likewise `w.taper(...)` with the newly computed tapered channels; and every
pre-existing heap object, in particular `w` itself with its data, is exactly
as before (a value transform, not a store mutation). -/
theorem waveform_filter_taper_value_transform (S : Type)
    (butter : ℕ → (ℚ ⊕ List ℚ) → String → S)
    (sosfilt sosfiltfilt : S → List ℚ → Except Unit (List ℚ))
    (get_window : String → List ℚ → ℕ → List ℚ)
    (h : Heap) (i : ℕ) (obj : WaveformObj) (hobj : h.objs[i]? = some obj)
    (filter_type : String) (cutoff : ℚ ⊕ List ℚ) (order : ℕ) (zero_phase : Bool)
    (newData : List (List ℚ))
    (hok : filterData S butter sosfilt sosfiltfilt filter_type cutoff order
      zero_phase obj.sampling_rate_hz obj.data = .ok newData)
    (window_type : String) (params : List ℚ) :
    Waveform.filter S butter sosfilt sosfiltfilt h i filter_type cutoff order
        zero_phase =
      .ok (⟨h.objs ++ [⟨newData, obj.attrsId, obj.sampling_rate_hz⟩]⟩,
        h.objs.length) ∧
    Waveform.taper get_window h i window_type params =
      .ok (⟨h.objs ++
          [⟨taperData get_window window_type params obj.data, obj.attrsId,
            obj.sampling_rate_hz⟩]⟩,
        h.objs.length) ∧
    (∀ (w : WaveformObj) (k : ℕ), k < h.objs.length →
      (h.objs ++ [w])[k]? = h.objs[k]?) := by
  refine ⟨?_, ?_, ?_⟩
  · rw [Waveform.filter, hobj]
    simp only [waveformFilterCall, hok]
  · rw [Waveform.taper, hobj]
    rfl
  · intro w k hk
    exact List.getElem?_append_left hk

/-- Witness for `waveform_filter_taper_value_transform`: a one-object heap,
identity engines, and a concrete filtered result. -/
theorem waveform_filter_taper_value_transform_witness :
    Waveform.filter Unit (fun _ _ _ => ()) (fun _ s => .ok s) (fun _ s => .ok s)
        ⟨[⟨[[1, 2]], 0, 100⟩]⟩ 0 "lowpass" (.inl 10) 5 true =
      .ok (⟨[⟨[[1, 2]], 0, 100⟩, ⟨[[1, 2]], 0, 100⟩]⟩, 1) ∧
    Waveform.taper (fun _ _ n => List.replicate n 1) ⟨[⟨[[1, 2]], 0, 100⟩]⟩ 0
        "hann" [] =
      .ok (⟨[⟨[[1, 2]], 0, 100⟩,
        ⟨taperData (fun _ _ n => List.replicate n 1) "hann" [] [[1, 2]], 0, 100⟩]⟩, 1) ∧
    (∀ (w : WaveformObj) (k : ℕ), k < (⟨[⟨[[1, 2]], 0, 100⟩]⟩ : Heap).objs.length →
      ((⟨[⟨[[1, 2]], 0, 100⟩]⟩ : Heap).objs ++ [w])[k]? =
        (⟨[⟨[[1, 2]], 0, 100⟩]⟩ : Heap).objs[k]?) := by
  exact waveform_filter_taper_value_transform Unit (fun _ _ _ => ())
    (fun _ s => .ok s) (fun _ s => .ok s) (fun _ _ n => List.replicate n 1)
    ⟨[⟨[[1, 2]], 0, 100⟩]⟩ 0 ⟨[[1, 2]], 0, 100⟩ rfl "lowpass" (.inl 10) 5 true
    [[1, 2]] rfl "hann" []

/-- `WaveformDataset` (`dataset.py` lines 27-31): the ordered list of heap
indices of its waveforms, one per binary-store key in file-iteration order. -/
structure PDataset where
  waveforms : List ℕ
  deriving Repr, DecidableEq

/-- The loop of `WaveformDataset.apply` (`dataset.py` lines 51-57): for each
waveform in order, check `hasattr(wf, method_name)` (raising
`AttributeError` when the method is missing — every `Waveform` is the same
class, so availability `hasM` is uniform across the collection), then call
the bound method: the call either raises (the first exception aborts the
loop) or returns a freshly allocated object, whose result `apply` discards
(the allocation stays on the heap; no existing object is written).  The
result is the final heap paired with whether the whole call completed. -/
def datasetApplyGo (call : WaveformObj → Except Unit WaveformObj) (hasM : Bool)
    (h : Heap) : List ℕ → Heap × Except Unit Unit
  | [] => (h, .ok ())
  | i :: rest =>
    if hasM then
      match h.objs[i]? with
      | none => (h, .error ())
      | some obj =>
        match call obj with
        | .error _ => (h, .error ())
        | .ok newObj => datasetApplyGo call hasM ⟨h.objs ++ [newObj]⟩ rest
    else (h, .error ())

/-- `WaveformDataset.apply(method_name, *args, **kwargs)`: run the loop over
the dataset's waveforms.  `call` is the bound per-waveform operation (for
`apply('filter', ...)` it is `waveformFilterCall` with the given arguments). -/
def datasetApply (call : WaveformObj → Except Unit WaveformObj) (hasM : Bool)
    (h : Heap) (d : PDataset) : Heap × Except Unit Unit :=
  datasetApplyGo call hasM h d.waveforms

theorem datasetApplyGo_frame (call : WaveformObj → Except Unit WaveformObj)
    (hasM : Bool) :
    ∀ (ids : List ℕ) (h : Heap) (k : ℕ), k < h.objs.length →
      (datasetApplyGo call hasM h ids).1.objs[k]? = h.objs[k]? := by
  intro ids
  induction ids with
  | nil => intro h k hk; rfl
  | cons i rest ih =>
    intro h k hk
    rw [datasetApplyGo]
    by_cases hm : hasM = true
    · rw [if_pos hm]
      cases hobj : h.objs[i]? with
      | none => rfl
      | some obj =>
        cases hcall : call obj with
        | error e => simp only [hcall]
        | ok newObj =>
          simp only [hcall]
          have hk' : k < (h.objs ++ [newObj]).length := by
            simp only [List.length_append, List.length_singleton]
            omega
          rw [ih ⟨h.objs ++ [newObj]⟩ k hk']
          exact List.getElem?_append_left hk
    · rw [if_neg hm]

theorem datasetApplyGo_missing_method
    (call : WaveformObj → Except Unit WaveformObj) (h : Heap)
    (i : ℕ) (rest : List ℕ) :
    (datasetApplyGo call false h (i :: rest)).2 = .error () := by
  rfl

theorem datasetApplyGo_raise (call : WaveformObj → Except Unit WaveformObj)
    (hasM : Bool) :
    ∀ (ids : List ℕ) (h : Heap),
      (∀ i ∈ ids, i < h.objs.length) →
      (∃ i ∈ ids, ∃ obj, h.objs[i]? = some obj ∧ call obj = .error ()) →
      (datasetApplyGo call hasM h ids).2 = .error () := by
  intro ids
  induction ids with
  | nil =>
    intro h _ hex
    obtain ⟨i, hi, _⟩ := hex
    exact absurd hi (List.not_mem_nil i)
  | cons i rest ih =>
    intro h hvalid hex
    rw [datasetApplyGo]
    by_cases hm : hasM = true
    · rw [if_pos hm]
      cases hobj : h.objs[i]? with
      | none => rfl
      | some obj =>
        cases hcall : call obj with
        | error e => simp only [hcall]
        | ok newObj =>
          simp only [hcall]
          obtain ⟨j, hj, o, ho, hco⟩ := hex
          rcases List.mem_cons.mp hj with rfl | hjr
          · rw [hobj] at ho
            cases ho
            rw [hcall] at hco
            exact Except.noConfusion hco
          · refine ih ⟨h.objs ++ [newObj]⟩ (fun a ha => ?_) ⟨j, hjr, o, ?_, hco⟩
            · have := hvalid a (List.mem_cons_of_mem _ ha)
              simp only [List.length_append, List.length_singleton]
              omega
            · have hjlt := hvalid j (List.mem_cons_of_mem _ hjr)
              rw [show (⟨h.objs ++ [newObj]⟩ : Heap).objs = h.objs ++ [newObj] from rfl]
              rw [List.getElem?_append_left hjlt]
              exact ho
    · rw [if_neg hm]

/-- C3: `d.apply(m, ...)` is all-or-nothing over the collection.  First,
unconditionally, every pre-existing heap object — in particular every
waveform of `d` — is untouched by the call, whatever its outcome (results of
the per-waveform calls are discarded, never written back), so no partial
application is ever observable.  Second, if the waveforms lack the method
`m`, or some per-waveform call raises (e.g. a signal too short for the
requested zero-phase filter order), the whole call fails with an error. -/
theorem dataset_apply_all_or_nothing
    (call : WaveformObj → Except Unit WaveformObj) (hasM : Bool)
    (h : Heap) (d : PDataset)
    (hvalid : ∀ i ∈ d.waveforms, i < h.objs.length) :
    (∀ k, k < h.objs.length →
      (datasetApply call hasM h d).1.objs[k]? = h.objs[k]?) ∧
    (hasM = false → d.waveforms ≠ [] →
      (datasetApply call hasM h d).2 = .error ()) ∧
    ((∃ i ∈ d.waveforms, ∃ obj, h.objs[i]? = some obj ∧ call obj = .error ()) →
      (datasetApply call hasM h d).2 = .error ()) := by
  refine ⟨fun k hk => datasetApplyGo_frame call hasM d.waveforms h k hk, ?_, ?_⟩
  · intro hm hne
    cases hw : d.waveforms with
    | nil => exact absurd hw hne
    | cons i rest =>
      subst hm
      rw [datasetApply, hw]
      exact datasetApplyGo_missing_method call h i rest
  · intro hex
    exact datasetApplyGo_raise call hasM d.waveforms h hvalid hex

/-- Witness for `dataset_apply_all_or_nothing`: a one-waveform dataset whose
per-waveform call always raises. -/
theorem dataset_apply_all_or_nothing_witness :
    (∀ k, k < (⟨[⟨[[1]], 0, 100⟩]⟩ : Heap).objs.length →
      (datasetApply (fun _ => .error ()) true ⟨[⟨[[1]], 0, 100⟩]⟩
          ⟨[0]⟩).1.objs[k]? = (⟨[⟨[[1]], 0, 100⟩]⟩ : Heap).objs[k]?) ∧
    (true = false → ([0] : List ℕ) ≠ [] →
      (datasetApply (fun _ => .error ()) true ⟨[⟨[[1]], 0, 100⟩]⟩
        ⟨[0]⟩).2 = .error ()) ∧
    ((∃ i ∈ ([0] : List ℕ), ∃ obj,
        (⟨[⟨[[1]], 0, 100⟩]⟩ : Heap).objs[i]? = some obj ∧
        (fun (_ : WaveformObj) => (.error () : Except Unit WaveformObj)) obj =
          .error ()) →
      (datasetApply (fun _ => .error ()) true ⟨[⟨[[1]], 0, 100⟩]⟩
        ⟨[0]⟩).2 = .error ()) := by
  exact dataset_apply_all_or_nothing (fun _ => .error ()) true
    ⟨[⟨[[1]], 0, 100⟩]⟩ ⟨[0]⟩ (by simp)

theorem zipWith_mul_replicate_one : ∀ (w : List ℚ) (n : ℕ), w.length = n →
    List.zipWith (· * ·) (List.replicate n (1 : ℚ)) w = w := by
  intro w
  induction w with
  | nil => intro n h; subst h; rfl
  | cons a t ih =>
    intro n h
    subst h
    simp only [List.length_cons, List.replicate_succ, List.zipWith_cons_cons,
      one_mul, List.cons.injEq, true_and]
    exact ih t.length rfl

/-- C8: `taper` synthesises, per channel, a window of length equal to that
channel's signal length from `(window_type, *window_params)` and multiplies
it elementwise into the channel (first conjunct, the exact per-channel
formula of the loop in `WaveformProcessor.taper`); consequently — second
conjunct, for any window synthesizer honouring scipy's length contract —
tapering a constant unit signal of any shape with window type `hann` yields
exactly the synthesised Hann window of that length on every channel. -/
theorem taper_window_multiplication
    (get_window : String → List ℚ → ℕ → List ℚ)
    (hlen : ∀ wt ps n, (get_window wt ps n).length = n) :
    (∀ (wt : String) (ps : List ℚ) (data : List (List ℚ)),
      taperData get_window wt ps data =
        data.map (fun s => List.zipWith (· * ·) s (get_window wt ps s.length))) ∧
    (∀ c n : ℕ,
      taperData get_window "hann" [] (List.replicate c (List.replicate n (1 : ℚ))) =
        List.replicate c (get_window "hann" [] n)) := by
  refine ⟨fun _ _ _ => rfl, fun c n => ?_⟩
  rw [taperData, List.map_replicate, List.length_replicate]
  have hmul : List.zipWith (· * ·) (List.replicate n (1 : ℚ))
      (get_window "hann" [] n) = get_window "hann" [] n :=
    zipWith_mul_replicate_one (get_window "hann" [] n) n (hlen "hann" [] n)
  rw [hmul]

/-- Witness for `taper_window_multiplication`: a concrete synthesizer
(constant window 1/2) on a 2-channel, 3-sample unit signal. -/
theorem taper_window_multiplication_witness :
    (∀ (wt : String) (ps : List ℚ) (data : List (List ℚ)),
      taperData (fun _ _ n => List.replicate n (1 / 2 : ℚ)) wt ps data =
        data.map (fun s => List.zipWith (· * ·) s
          (List.replicate s.length (1 / 2 : ℚ)))) ∧
    (∀ c n : ℕ,
      taperData (fun _ _ n => List.replicate n (1 / 2 : ℚ)) "hann" []
          (List.replicate c (List.replicate n (1 : ℚ))) =
        List.replicate c (List.replicate n (1 / 2 : ℚ))) := by
  exact taper_window_multiplication (fun _ _ n => List.replicate n (1 / 2 : ℚ))
    (fun _ _ n => List.length_replicate n _)

/-! ## load_dataset (`core.py`) -/

/-- `pd.read_csv(path, parse_dates=cols)`: pandas raises `ValueError`
(`Missing column provided to parse_dates`) when a column named in
`parse_dates` is absent from the table; otherwise it returns the table with
those columns parsed as datetimes. -/
def readCsvParseDates (columns : List String) (parse_dates : List String) :
    Except Unit (List String) :=
  if parse_dates.all (fun c => columns.contains c) then .ok columns
  else .error ()

/-- `load_dataset` (`core.py` lines 7-35), cut at the step that decides the
claim: it reads the attribute CSV with
`parse_dates=['trace_start_time', 'source_origin_time']`; only if that read
succeeds does control reach the `WaveformDataset(wavs, attrs)` construction. -/
def load_dataset (columns : List String) : Except Unit (List String) :=
  readCsvParseDates columns ["trace_start_time", "source_origin_time"]

/-- The exact columns the explicit-mode writer produces: the dict keys of
`WaveformFetcher._append_attributes` (`fetcher_csv.py` lines 313-330), in
order. -/
def explicitModeColumns : List String :=
  ["trace_name", "trace_start_time", "rec_network", "rec_name", "rec_type",
   "rec_latitude_deg", "rec_longitude_deg", "rec_elevation_m",
   "rec_sampling_rate_hz", "src_id", "src_origin_time", "src_latitude_deg",
   "src_longitude_deg", "src_depth_km", "src_magnitude", "p_travel_sec"]

/-- The exact columns the synthetic-mode writer produces: the dict keys of
`INTFetcher._generate_attributes` (`fetcher_int.py` lines 126-137). -/
def syntheticModeColumns : List String :=
  ["trace_name", "trace_start_time", "rec_network", "rec_name", "rec_type",
   "rec_latitude_deg", "rec_longitude_deg", "rec_elevation_m",
   "rec_sampling_rate_hz", "src_id"]

/-- C9 (code evaluated at the failing input): on an attribute table with
exactly the required columns of either writer, `load_dataset` fails —
pandas raises because the `parse_dates` list names `source_origin_time`,
a column neither writer produces (the explicit-mode writer produces
`src_origin_time`).  No `WaveformDataset` is ever returned. -/
theorem load_dataset_rejects_written_tables :
    load_dataset explicitModeColumns = .error () ∧
    load_dataset syntheticModeColumns = .error () ∧
    "source_origin_time" ∉ explicitModeColumns ∧
    "src_origin_time" ∈ explicitModeColumns := by
  refine ⟨rfl, rfl, by decide, by decide⟩

/-! ## Bulk in-place Processor (`processing.py`) -/

/-- The shape of scipy's second-order-section filter design (`butter(...,
output='sos')`): a list of six-coefficient sections. -/
def SOSMatrix : Type := List (ℚ × ℚ × ℚ × ℚ × ℚ × ℚ)

/-- The pair of HDF5 stores in a `Processor`'s directory: the original
`*.hdf5` file and the `*_copy.hdf5` file `_locate_files` creates.  A store
maps trace names to channel data. -/
structure ProcessorState where
  originalStore : List (String × List (List ℚ))
  copyStore : List (String × List (List ℚ))

/-- `Processor._locate_files` (`processing.py` lines 42-62):
`shutil.copyfile(original_file, copy_file)` duplicates the original's
contents into `original_file.replace('.hdf5', '_copy.hdf5')`, and
`h5py.File(copy_file, 'r+')` opens the COPY read-write; the original file is
never opened by the Processor after the copy. -/
def locateFiles (original : List (String × List (List ℚ))) : ProcessorState :=
  ⟨original, original⟩

/-- `self.wavs[trace_name][:] = transformed`: overwrite the channel data at
an existing key of the opened (copy) store. -/
def storeWrite (s : List (String × List (List ℚ))) (k : String)
    (v : List (List ℚ)) : List (String × List (List ℚ)) :=
  s.map (fun p => if p.1 = k then (p.1, v) else p)

/-- The per-trace loop shared by `Processor.taper` and `Processor.filter`
(`processing.py` lines 83-91 and 119-129): for each `trace_name` of the
attribute table, read the signals from the opened copy (`KeyError` if the
key is absent), transform every channel (the transform may raise, e.g.
`sosfiltfilt` on a short signal), and write the result back at the same key
of the copy.  The first exception aborts the loop; the state reached so far
is returned along with the outcome. -/
def bulkOpGo (transform : List (List ℚ) → Except Unit (List (List ℚ))) :
    List String → ProcessorState → ProcessorState × Except Unit Unit
  | [], st => (st, .ok ())
  | tn :: rest, st =>
    match st.copyStore.lookup tn with
    | none => (st, .error ())
    | some signals =>
      match transform signals with
      | .error _ => (st, .error ())
      | .ok out =>
        bulkOpGo transform rest ⟨st.originalStore, storeWrite st.copyStore tn out⟩

/-- One in-place Processor operation with its engine parameters. -/
inductive ProcOp where
  | taperOp (get_window : String → List ℚ → ℕ → List ℚ) (window_type : String)
      (params : List ℚ)
  | filterOp (butter : ℕ → (ℚ ⊕ List ℚ) → String → SOSMatrix)
      (sosfilt sosfiltfilt : SOSMatrix → List ℚ → Except Unit (List ℚ))
      (filter_type : String) (cutoff : ℚ ⊕ List ℚ) (order : ℕ)
      (zero_phase : Bool) (rate : ℚ)

/-- The channel transform an operation applies inside the per-trace loop:
`Processor.taper` multiplies each channel by its synthesised window
(`taperData`), `Processor.filter` runs each channel through the designed
second-order sections (`filterData`). -/
def ProcOp.transform : ProcOp → (List (List ℚ) → Except Unit (List (List ℚ)))
  | .taperOp gw wt ps => fun s => .ok (taperData gw wt ps s)
  | .filterOp butter sf sff ft c o zp rate =>
      filterData SOSMatrix butter sf sff ft c o zp rate

/-- A sequence of bulk in-place operations on one `Processor` instance:
the trace-name list comes from the attribute table loaded once in
`_locate_files`. -/
def runProcessorOps (names : List String) (ops : List ProcOp)
    (st : ProcessorState) : ProcessorState :=
  ops.foldl (fun s op => (bulkOpGo op.transform names s).1) st

theorem bulkOpGo_preserves_original
    (transform : List (List ℚ) → Except Unit (List (List ℚ))) :
    ∀ (names : List String) (st : ProcessorState),
      (bulkOpGo transform names st).1.originalStore = st.originalStore := by
  intro names
  induction names with
  | nil => intro st; rfl
  | cons tn rest ih =>
    intro st
    rw [bulkOpGo]
    cases hl : st.copyStore.lookup tn with
    | none => rfl
    | some signals =>
      cases ht : transform signals with
      | error e => simp only [ht]
      | ok out =>
        simp only [ht]
        exact ih ⟨st.originalStore, storeWrite st.copyStore tn out⟩

/-- C10: every bulk in-place `Processor` operation sequence (filters and
tapers, with any engines, arguments and trace lists, aborted early or not)
writes trace data only into the copy store created at construction time by
`_locate_files`: the copy starts as an exact duplicate of the original, and
the original store's contents after any operation sequence are exactly its
initial contents — the Processor never writes to (indeed never reopens) the
original. -/
theorem processor_writes_only_copy
    (original : List (String × List (List ℚ))) (names : List String)
    (ops : List ProcOp) :
    (locateFiles original).copyStore = original ∧
    (runProcessorOps names ops (locateFiles original)).originalStore =
      original := by
  refine ⟨rfl, ?_⟩
  have key : ∀ (ops' : List ProcOp) (st : ProcessorState),
      (runProcessorOps names ops' st).originalStore = st.originalStore := by
    intro ops'
    induction ops' with
    | nil => intro st; rfl
    | cons op rest ih =>
      intro st
      rw [runProcessorOps, List.foldl_cons]
      rw [show List.foldl (fun s op => (bulkOpGo op.transform names s).1) _ rest =
        runProcessorOps names rest ((bulkOpGo op.transform names st).1) from rfl]
      rw [ih ((bulkOpGo op.transform names st).1)]
      exact bulkOpGo_preserves_original op.transform names st
  exact key ops (locateFiles original)

end QuakePro
